import Mathlib

/-!
Verification of the dfcx-scrapi route builders (src/dfcx_scrapi/builders/routes.py):
FulfillmentBuilder, TransitionRouteBuilder and EventHandlerBuilder, which assemble
Dialogflow CX Fulfillment, TransitionRoute and EventHandler records.

Modelling notes, applied consistently below:
* Python values supplied by callers are modelled by the dynamic type PyVal, with
  Python truthiness made explicit (PyVal.truthy).
* Proto-plus message objects are modelled as Lean structures carrying the fields the
  builders touch; proto3 string fields default to "" and bool fields to false.
  A proto-plus message is truthy if and only if some field of it is truthy (the
  proto-plus Message bool is any-field-truthy): a scalar field differing from its
  falsy default, a nonempty repeated field, or a present submessage that is itself
  truthy; a submessage that is set but empty is itself falsy and contributes
  nothing. A submessage field has explicit presence, modelled with Option.
* The proto-plus constructor ignores keyword arguments whose value is None, leaving
  the field at its default; a non-None value is marshalled by the protobuf field
  checkers: string fields accept exactly str, bool fields accept bool and int
  (anything with an index), and any other value raises TypeError, modelled as
  Err.pyTypeError.
* Each builder method is modelled as a state-passing function returning the
  post-state of the builder together with an Except: the error kind raised, or the
  value the Python method returns (self.proto_obj, hence an Option record).
-/

/-- Dynamic Python value covering the argument shapes the builders accept. -/
inductive PyVal where
  | none
  | str (s : String)
  | int (n : Int)
  | bool (b : Bool)
  | list (xs : List PyVal)
  | dict (entries : List (PyVal × PyVal))

namespace PyVal

/-- Python truthiness of a modelled value. -/
def truthy : PyVal → Bool
  | .none => false
  | .str s => s != ""
  | .int n => n != 0
  | .bool b => b
  | .list xs => !xs.isEmpty
  | .dict es => !es.isEmpty

/-- Python isinstance(v, str). -/
def isStr : PyVal → Bool
  | .str _ => true
  | _ => false

/-- Python isinstance(v, bool); note a Python int is not a bool. -/
def isBool : PyVal → Bool
  | .bool _ => true
  | _ => false

/-- Python isinstance(v, dict). -/
def isDict : PyVal → Bool
  | .dict _ => true
  | _ => false

/-- A value that is either None or a str, the well-typed inputs of the
    string-typed keyword arguments of the builders. -/
def isNoneOrStr : PyVal → Bool
  | .none => true
  | .str _ => true
  | _ => false

/-- Underlying string of a str value, with "" elsewhere (only used under isStr or
    isNoneOrStr guards, where it agrees with the protobuf marshalling). -/
def asStr : PyVal → String
  | .str s => s
  | _ => ""

/-- Underlying boolean of a bool or int value, as protobuf coerces it. -/
def asBool : PyVal → Bool
  | .bool b => b
  | .int n => n != 0
  | _ => false

end PyVal

/-- Error kinds of the builders, following the taxonomy of the specification.
    notLoaded, typeMismatch, alreadyLoaded, invalidArgument, missingField and
    conflictingFields are the ValueError and Exception raises of routes.py itself;
    pyTypeError models a Python TypeError raised by the interpreter (keyword
    argument binding) or by the protobuf field marshalling. -/
inductive Err where
  | notLoaded
  | typeMismatch
  | alreadyLoaded
  | invalidArgument
  | missingField
  | conflictingFields
  | pyTypeError

/-- Protobuf marshalling of a constructor keyword argument into a proto3 string
    field: None is ignored by proto-plus (field keeps default ""), a str is stored,
    and every other value raises TypeError. -/
def marshalStr : PyVal → Except Err String
  | .none => .ok ""
  | .str s => .ok s
  | _ => .error .pyTypeError

/-- Protobuf marshalling into a proto3 bool field: None keeps the default false,
    bool and int are accepted (protobuf accepts any value with an index and applies
    bool coercion), every other value raises TypeError. -/
def marshalBool : PyVal → Except Err Bool
  | .none => .ok false
  | .bool b => .ok b
  | .int n => .ok (n != 0)
  | _ => .error .pyTypeError

/-- ResponseMessage proto: a tagged variant, exactly one populated per entry.
    The outputAudioText variant carries the oneof source as the pair of its text
    and ssml sub-fields, the unused one left "". -/
inductive ResponseMessage where
  | text (texts : List String)
  | liveAgentHandoff (metadata : List (String × PyVal))
  | conversationSuccess (metadata : List (String × PyVal))
  | outputAudioText (text : String) (ssml : String)
  | playAudio (audio_uri : String)
  | telephonyTransferCall (phone_number : String)

/-- Fulfillment.SetParameterAction proto. -/
structure SetParameterAction where
  parameter : String := ""
  value : String := ""

/-- Fulfillment proto, restricted to the fields routes.py touches. -/
structure Fulfillment where
  webhook : String := ""
  tag : String := ""
  return_partial_responses : Bool := false
  messages : List ResponseMessage := []
  set_parameter_actions : List SetParameterAction := []

/-- Proto-plus truthiness of a Fulfillment: some field is truthy. -/
def Fulfillment.isTruthy (f : Fulfillment) : Bool :=
  f.webhook != "" || f.tag != "" || f.return_partial_responses ||
    !f.messages.isEmpty || !f.set_parameter_actions.isEmpty

/-- Python truthiness of an optional Fulfillment slot or argument:
    None is falsy, a message is truthy iff nonempty. -/
def optTruthyF : Option Fulfillment → Bool
  | Option.none => false
  | some f => f.isTruthy

/-- TransitionRoute proto, restricted to the fields routes.py touches.
    trigger_fulfillment is a submessage field with explicit presence. -/
structure TransitionRoute where
  intent : String := ""
  condition : String := ""
  trigger_fulfillment : Option Fulfillment := Option.none
  target_page : String := ""
  target_flow : String := ""

/-- Proto-plus truthiness of a TransitionRoute: some field is truthy. A
    trigger_fulfillment that is set but empty is itself falsy and contributes
    nothing, so the record built by create_empty_transition_route with all
    arguments defaulted (whose only set field is the substituted empty
    Fulfillment) is falsy. -/
def TransitionRoute.isTruthy (r : TransitionRoute) : Bool :=
  r.intent != "" || r.condition != "" || optTruthyF r.trigger_fulfillment ||
    r.target_page != "" || r.target_flow != ""

/-- Python truthiness of an optional TransitionRoute slot. -/
def optTruthyTR : Option TransitionRoute → Bool
  | Option.none => false
  | some r => r.isTruthy

/-- EventHandler proto, restricted to the fields routes.py touches. -/
structure EventHandler where
  event : String := ""
  trigger_fulfillment : Option Fulfillment := Option.none
  target_page : String := ""
  target_flow : String := ""

/-- Proto-plus truthiness of an EventHandler: some field is truthy; a set but
    empty trigger_fulfillment contributes nothing. -/
def EventHandler.isTruthy (h : EventHandler) : Bool :=
  h.event != "" || optTruthyF h.trigger_fulfillment ||
    h.target_page != "" || h.target_flow != ""

/-- Python truthiness of an optional EventHandler slot. -/
def optTruthyEH : Option EventHandler → Bool
  | Option.none => false
  | some h => h.isTruthy

/-- CPython keyword binding check for a call with npos positional arguments and
    the given keyword names, against a function with the given parameter names:
    binding raises TypeError unless every keyword names a parameter that was not
    already filled positionally and the positional arguments fit. -/
def kwBindingOk (params : List String) (npos : Nat) (kwargs : List String) : Bool :=
  Nat.ble npos params.length &&
    kwargs.all (fun k => params.contains k && !(params.take npos).contains k)

/-- Parameter list of the source function _response_message_creator, which is
    declared as def _response_message_creator(response_type, message, mode=None)
    with no self parameter. -/
def creatorParams : List String := ["response_type", "message", "mode"]

/-- Binding status of the call site in add_response_message: the source calls
    self._response_message_creator(response_type=..., message=..., mode=...), a
    bound-method call, so the receiver fills the first parameter response_type
    positionally and the response_type keyword collides (TypeError: got multiple
    values for argument). -/
def creatorCallBindingOk : Bool := kwBindingOk creatorParams 1 creatorParams

/-- Translation of the body of FulfillmentBuilder._response_message_creator
    (routes.py lines 110 to 221): the value the body assigns to its local
    response_message, or the ValueError it raises. Note the source function has no
    return statement, so this constructed value is discarded by the source; see
    response_message_creator for the value the source actually returns. -/
def response_message_creator_value (response_type : String) (message : PyVal)
    (mode : Option String) : Except Err ResponseMessage :=
  if response_type = "text" then
    match message with
    | .str s => .ok (.text [s])
    | .list xs =>
      if xs.all PyVal.isStr then .ok (.text (xs.map PyVal.asStr))
      else .error .invalidArgument
    | _ => .error .invalidArgument
  else if response_type = "live_agent_handoff" then
    match message with
    | .dict es =>
      if es.all (fun e => e.1.isStr) then
        .ok (.liveAgentHandoff (es.map (fun e => (e.1.asStr, e.2))))
      else .error .invalidArgument
    | _ => .error .invalidArgument
  else if response_type = "conversation_success" then
    match message with
    | .dict es =>
      if es.all (fun e => e.1.isStr) then
        .ok (.conversationSuccess (es.map (fun e => (e.1.asStr, e.2))))
      else .error .invalidArgument
    | _ => .error .invalidArgument
  else if response_type = "output_audio_text" then
    match message with
    | .str s =>
      match mode with
      | some "text" => .ok (.outputAudioText s "")
      | some "ssml" => .ok (.outputAudioText "" s)
      | _ => .error .invalidArgument
    | _ => .error .invalidArgument
  else if response_type = "play_audio" then
    match message with
    | .str s => .ok (.playAudio s)
    | _ => .error .invalidArgument
  else if response_type = "telephony_transfer_call" then
    match message with
    | .str s => .ok (.telephonyTransferCall s)
    | _ => .error .invalidArgument
  else .error .invalidArgument

/-- Return behaviour of _response_message_creator: the source builds a message but
    has no return statement, so every non-raising path falls off the end of the
    function and returns None. -/
def response_message_creator (response_type : String) (message : PyVal)
    (mode : Option String) : Except Err (Option ResponseMessage) :=
  (response_message_creator_value response_type message mode).map
    (fun _ => Option.none)

/-- Builder state: the single mutable slot proto_obj, initially None. -/
structure FulfillmentBuilder where
  proto_obj : Option Fulfillment := Option.none

namespace FulfillmentBuilder

/-- FulfillmentBuilder._check_fulfillment_exist: raises (NotLoaded) when proto_obj
    is falsy, that is None or an empty Fulfillment. The isinstance branch of the
    source always passes in this typed model. -/
def check_fulfillment_exist (b : FulfillmentBuilder) : Except Err Unit :=
  if !optTruthyF b.proto_obj then .error .notLoaded else .ok ()

/-- FulfillmentBuilder.load_fulfillment for an argument of the correct type (the
    isinstance guard of the source passes in this typed model). -/
def load_fulfillment (b : FulfillmentBuilder) (obj : Fulfillment)
    (overwrite : Bool) : FulfillmentBuilder × Except Err (Option Fulfillment) :=
  if optTruthyF b.proto_obj && !overwrite then (b, .error .alreadyLoaded)
  else if overwrite || !optTruthyF b.proto_obj then
    let b2 : FulfillmentBuilder := { proto_obj := some obj }
    (b2, .ok b2.proto_obj)
  else (b, .ok b.proto_obj)

/-- FulfillmentBuilder.create_empty_fulfillment, guards in source order:
    return_partial_responses truthy and not bool, webhook or tag truthy and not
    str, webhook truthy without truthy tag, proto_obj truthy without overwrite;
    then construction with protobuf marshalling of the three fields. -/
def create_empty_fulfillment (b : FulfillmentBuilder)
    (webhook tag return_partial_responses : PyVal) (overwrite : Bool) :
    FulfillmentBuilder × Except Err (Option Fulfillment) :=
  if return_partial_responses.truthy && !return_partial_responses.isBool then
    (b, .error .typeMismatch)
  else if (webhook.truthy && !webhook.isStr) || (tag.truthy && !tag.isStr) then
    (b, .error .typeMismatch)
  else if webhook.truthy && !tag.truthy then (b, .error .missingField)
  else if optTruthyF b.proto_obj && !overwrite then (b, .error .alreadyLoaded)
  else if overwrite || !optTruthyF b.proto_obj then
    match marshalStr webhook, marshalStr tag,
        marshalBool return_partial_responses with
    | .ok w, .ok t, .ok r =>
      let b2 : FulfillmentBuilder :=
        { proto_obj := some { webhook := w, tag := t,
                              return_partial_responses := r } }
      (b2, .ok b2.proto_obj)
    | _, _, _ => (b, .error .pyTypeError)
  else (b, .ok b.proto_obj)

/-- FulfillmentBuilder.add_response_message: checks the held record, then performs
    the bound-method call to _response_message_creator. That call never binds (see
    creatorCallBindingOk), so it raises TypeError; were it bound, the creator would
    return None (no return statement) and messages.append(None) would raise
    TypeError from the repeated-field marshaller, so the append branch with a real
    message is unreachable but modelled for totality. -/
def add_response_message (b : FulfillmentBuilder) (response_type : String)
    (message : PyVal) (mode : Option String) :
    FulfillmentBuilder × Except Err (Option Fulfillment) :=
  match check_fulfillment_exist b with
  | .error e => (b, .error e)
  | .ok _ =>
    if creatorCallBindingOk then
      match response_message_creator response_type message mode with
      | .error e => (b, .error e)
      | .ok Option.none => (b, .error .pyTypeError)
      | .ok (some m) =>
        match b.proto_obj with
        | some f =>
          let b2 : FulfillmentBuilder :=
            { proto_obj := some { f with messages := f.messages ++ [m] } }
          (b2, .ok b2.proto_obj)
        | Option.none => (b, .error .notLoaded)
    else (b, .error .pyTypeError)

/-- FulfillmentBuilder.add_parameter_presets: checks the held record; for a dict
    whose keys and values are all str, appends one SetParameterAction per entry in
    iteration order and returns proto_obj; otherwise raises (InvalidArgument). -/
def add_parameter_presets (b : FulfillmentBuilder) (parameter_map : PyVal) :
    FulfillmentBuilder × Except Err (Option Fulfillment) :=
  match check_fulfillment_exist b with
  | .error e => (b, .error e)
  | .ok _ =>
    match parameter_map with
    | .dict es =>
      if es.all (fun e => e.1.isStr && e.2.isStr) then
        match b.proto_obj with
        | some f =>
          let acts : List SetParameterAction :=
            f.set_parameter_actions ++
              es.map (fun e => { parameter := e.1.asStr, value := e.2.asStr })
          let b2 : FulfillmentBuilder :=
            { proto_obj := some { f with set_parameter_actions := acts } }
          (b2, .ok b2.proto_obj)
        | Option.none => (b, .error .notLoaded)
      else (b, .error .invalidArgument)
    | _ => (b, .error .invalidArgument)

/-- FulfillmentBuilder.add_conditional_case: checks the held record and does
    nothing else; the source body is only the check, so the method returns None. -/
def add_conditional_case (b : FulfillmentBuilder) :
    FulfillmentBuilder × Except Err (Option Fulfillment) :=
  match check_fulfillment_exist b with
  | .error e => (b, .error e)
  | .ok _ => (b, .ok Option.none)

end FulfillmentBuilder

/-- Builder state for TransitionRoute records. -/
structure TransitionRouteBuilder where
  proto_obj : Option TransitionRoute := Option.none

namespace TransitionRouteBuilder

/-- TransitionRouteBuilder.load_transition_route for an argument of the correct
    type (the isinstance guard of the source passes in this typed model). -/
def load_transition_route (b : TransitionRouteBuilder) (obj : TransitionRoute)
    (overwrite : Bool) :
    TransitionRouteBuilder × Except Err (Option TransitionRoute) :=
  if optTruthyTR b.proto_obj && !overwrite then (b, .error .alreadyLoaded)
  else if overwrite || !optTruthyTR b.proto_obj then
    let b2 : TransitionRouteBuilder := { proto_obj := some obj }
    (b2, .ok b2.proto_obj)
  else (b, .ok b.proto_obj)

/-- TransitionRouteBuilder.create_empty_transition_route, guards in source order:
    any of intent, condition, target_page, target_flow truthy and not str; both
    targets truthy; proto_obj truthy without overwrite. The trigger_fulfillment
    argument is typed, so the isinstance guard of the source always passes. On
    construction a falsy trigger_fulfillment (None or an empty Fulfillment) is
    replaced by a fresh empty Fulfillment, so the field is always present. -/
def create_empty_transition_route (b : TransitionRouteBuilder)
    (intent condition : PyVal) (trigger_fulfillment : Option Fulfillment)
    (target_page target_flow : PyVal) (overwrite : Bool) :
    TransitionRouteBuilder × Except Err (Option TransitionRoute) :=
  if (intent.truthy && !intent.isStr) || (condition.truthy && !condition.isStr) ||
      (target_page.truthy && !target_page.isStr) ||
      (target_flow.truthy && !target_flow.isStr) then
    (b, .error .typeMismatch)
  else if target_page.truthy && target_flow.truthy then
    (b, .error .conflictingFields)
  else if optTruthyTR b.proto_obj && !overwrite then (b, .error .alreadyLoaded)
  else if overwrite || !optTruthyTR b.proto_obj then
    match marshalStr intent, marshalStr condition, marshalStr target_page,
        marshalStr target_flow with
    | .ok i, .ok c, .ok p, .ok fl =>
      let tf : Option Fulfillment :=
        if !optTruthyF trigger_fulfillment then some {} else trigger_fulfillment
      let b2 : TransitionRouteBuilder :=
        { proto_obj := some { intent := i, condition := c,
                              trigger_fulfillment := tf, target_page := p,
                              target_flow := fl } }
      (b2, .ok b2.proto_obj)
    | _, _, _, _ => (b, .error .pyTypeError)
  else (b, .ok b.proto_obj)

end TransitionRouteBuilder

/-- Builder state for EventHandler records. -/
structure EventHandlerBuilder where
  proto_obj : Option EventHandler := Option.none

namespace EventHandlerBuilder

/-- EventHandlerBuilder.load_event_handler for an argument of the correct type
    (the isinstance guard of the source passes in this typed model). -/
def load_event_handler (b : EventHandlerBuilder) (obj : EventHandler)
    (overwrite : Bool) :
    EventHandlerBuilder × Except Err (Option EventHandler) :=
  if optTruthyEH b.proto_obj && !overwrite then (b, .error .alreadyLoaded)
  else if overwrite || !optTruthyEH b.proto_obj then
    let b2 : EventHandlerBuilder := { proto_obj := some obj }
    (b2, .ok b2.proto_obj)
  else (b, .ok b.proto_obj)

/-- EventHandlerBuilder.create_empty_event_handler, guards in source order: event
    truthy and not str; both targets truthy (the source has no string type guard
    on target_page or target_flow); proto_obj truthy without overwrite. Unlike the
    TransitionRoute builder, an absent trigger_fulfillment is stored as unset
    (proto-plus ignores a None keyword argument). -/
def create_empty_event_handler (b : EventHandlerBuilder) (event : PyVal)
    (trigger_fulfillment : Option Fulfillment)
    (target_page target_flow : PyVal) (overwrite : Bool) :
    EventHandlerBuilder × Except Err (Option EventHandler) :=
  if event.truthy && !event.isStr then (b, .error .typeMismatch)
  else if target_page.truthy && target_flow.truthy then
    (b, .error .conflictingFields)
  else if optTruthyEH b.proto_obj && !overwrite then (b, .error .alreadyLoaded)
  else if overwrite || !optTruthyEH b.proto_obj then
    match marshalStr event, marshalStr target_page, marshalStr target_flow with
    | .ok e, .ok p, .ok fl =>
      let b2 : EventHandlerBuilder :=
        { proto_obj := some { event := e,
                              trigger_fulfillment := trigger_fulfillment,
                              target_page := p, target_flow := fl } }
      (b2, .ok b2.proto_obj)
    | _, _, _ => (b, .error .pyTypeError)
  else (b, .ok b.proto_obj)

end EventHandlerBuilder

/-- Operations of FulfillmentBuilder, for the shared state-machine claims. -/
inductive FOp where
  | load (obj : Fulfillment) (overwrite : Bool)
  | create (webhook tag return_partial_responses : PyVal) (overwrite : Bool)
  | addMsg (response_type : String) (message : PyVal) (mode : Option String)
  | addPresets (parameter_map : PyVal)
  | addCond

/-- One FulfillmentBuilder operation applied to the builder state (the returned
    value of the method is dropped; a raise leaves the state as the method left
    it, which in the source is always the pre-raise state). -/
def stepF (b : FulfillmentBuilder) : FOp → FulfillmentBuilder
  | .load obj ow => (FulfillmentBuilder.load_fulfillment b obj ow).1
  | .create w t r ow => (FulfillmentBuilder.create_empty_fulfillment b w t r ow).1
  | .addMsg rt m mo => (FulfillmentBuilder.add_response_message b rt m mo).1
  | .addPresets pm => (FulfillmentBuilder.add_parameter_presets b pm).1
  | .addCond => (FulfillmentBuilder.add_conditional_case b).1

/-- Operations of TransitionRouteBuilder. -/
inductive TROp where
  | load (obj : TransitionRoute) (overwrite : Bool)
  | create (intent condition : PyVal) (trigger_fulfillment : Option Fulfillment)
      (target_page target_flow : PyVal) (overwrite : Bool)

/-- One TransitionRouteBuilder operation applied to the builder state. -/
def stepTR (b : TransitionRouteBuilder) : TROp → TransitionRouteBuilder
  | .load obj ow => (TransitionRouteBuilder.load_transition_route b obj ow).1
  | .create i c tf p fl ow =>
    (TransitionRouteBuilder.create_empty_transition_route b i c tf p fl ow).1

/-- Operations of EventHandlerBuilder. -/
inductive EHOp where
  | load (obj : EventHandler) (overwrite : Bool)
  | create (event : PyVal) (trigger_fulfillment : Option Fulfillment)
      (target_page target_flow : PyVal) (overwrite : Bool)

/-- One EventHandlerBuilder operation applied to the builder state. -/
def stepEH (b : EventHandlerBuilder) : EHOp → EventHandlerBuilder
  | .load obj ow => (EventHandlerBuilder.load_event_handler b obj ow).1
  | .create e tf p fl ow =>
    (EventHandlerBuilder.create_empty_event_handler b e tf p fl ow).1

/-- Record produced by a successful add_parameter_presets: one SetParameterAction
    appended per map entry, in the iteration order of the mapping. -/
def appendPresets (f : Fulfillment) (es : List (PyVal × PyVal)) : Fulfillment :=
  { f with set_parameter_actions :=
      f.set_parameter_actions ++
        es.map (fun e => { parameter := e.1.asStr, value := e.2.asStr }) }

/-- Marshalling a None-or-str value into a string field succeeds with asStr. -/
theorem marshalStr_of_isNoneOrStr {v : PyVal} (h : v.isNoneOrStr = true) :
    marshalStr v = .ok v.asStr := by
  cases v <;> first
    | rfl
    | simp [PyVal.isNoneOrStr] at h

/-- Marshalling a bool value into a bool field succeeds with asBool. -/
theorem marshalBool_of_isBool {v : PyVal} (h : v.isBool = true) :
    marshalBool v = .ok v.asBool := by
  cases v <;> first
    | rfl
    | simp [PyVal.isBool] at h

/-- The truthy-and-not-str guard is false on a None-or-str value. -/
theorem strGuard_false {v : PyVal} (h : v.isNoneOrStr = true) :
    (v.truthy && !v.isStr) = false := by
  cases v <;> simp_all [PyVal.isNoneOrStr, PyVal.truthy, PyVal.isStr]

/-- The truthy-and-not-bool guard is false on a bool value. -/
theorem boolGuard_false {v : PyVal} (h : v.isBool = true) :
    (v.truthy && !v.isBool) = false := by
  cases v <;> simp_all [PyVal.isBool, PyVal.truthy]

/-- C1: the claim states the intended behaviour (the docstrings of
    add_response_message and _response_message_creator promise it), but the code
    cannot deliver it: _response_message_creator is declared without a self
    parameter, so the bound-method call in add_response_message raises TypeError
    (the receiver fills response_type positionally and the response_type keyword
    collides), and independently the creator body never returns the message it
    builds. On a builder holding a nonempty record, add_response_message with
    response_type "text" and message "hi" therefore raises TypeError and appends
    nothing, instead of appending one text entry containing the list with the
    single element "hi" and returning the held record. -/
theorem c1_add_response_message_raises_type_error :
    creatorCallBindingOk = false ∧
    FulfillmentBuilder.add_response_message { proto_obj := some { tag := "t" } }
        "text" (PyVal.str "hi") Option.none =
      ({ proto_obj := some { tag := "t" } }, .error .pyTypeError) ∧
    response_message_creator "text" (PyVal.str "hi") Option.none =
      .ok Option.none := by
  exact ⟨rfl, rfl, rfl⟩

/-- C2 counterexample: create_empty with all arguments defaulted succeeds but
    holds a falsy record, so the immediately following second call without
    overwrite does not raise AlreadyLoaded as the claim states: it succeeds again
    and replaces the record, because presence of the held record is decided by
    its truthiness. This happens on FulfillmentBuilder (the empty record) and
    also on TransitionRouteBuilder, whose all-default record has as its only set
    field the substituted empty trigger fulfillment, itself falsy and so
    contributing nothing to the any-field-truthy proto-plus bool. -/
theorem c2_counterexample :
    FulfillmentBuilder.create_empty_fulfillment {} PyVal.none PyVal.none
        (PyVal.bool false) false = ({ proto_obj := some {} }, .ok (some {})) ∧
    FulfillmentBuilder.create_empty_fulfillment { proto_obj := some {} }
        PyVal.none PyVal.none (PyVal.bool false) false =
      ({ proto_obj := some {} }, .ok (some {})) ∧
    TransitionRouteBuilder.create_empty_transition_route {} PyVal.none PyVal.none
        Option.none PyVal.none PyVal.none false =
      ({ proto_obj := some { trigger_fulfillment := some {} } },
       .ok (some { trigger_fulfillment := some {} })) ∧
    TransitionRouteBuilder.create_empty_transition_route
        { proto_obj := some { trigger_fulfillment := some {} } } PyVal.none
        PyVal.none Option.none PyVal.none PyVal.none false =
      ({ proto_obj := some { trigger_fulfillment := some {} } },
       .ok (some { trigger_fulfillment := some {} })) := by
  exact ⟨rfl, rfl, rfl, rfl⟩

/-- C3 counterexample: the mode value "markup" is rejected with InvalidArgument by
    the output_audio_text branch of _response_message_creator (the accepted values
    are "text" and "ssml"), contradicting the claim that mode must be "text" or
    "markup"; moreover even mode "text" appends nothing through
    add_response_message, which raises TypeError (see C1). -/
theorem c3_counterexample :
    response_message_creator_value "output_audio_text" (PyVal.str "hello")
        (some "markup") = .error .invalidArgument ∧
    FulfillmentBuilder.add_response_message { proto_obj := some { tag := "t" } }
        "output_audio_text" (PyVal.str "hello") (some "text") =
      ({ proto_obj := some { tag := "t" } }, .error .pyTypeError) := by
  exact ⟨rfl, rfl⟩

/-- C8: loading a record of the correct type into an empty builder stores exactly
    the record passed in and returns it unchanged, for all three builders. -/
theorem c8_load_round_trip (f : Fulfillment) (tr : TransitionRoute)
    (eh : EventHandler) :
    FulfillmentBuilder.load_fulfillment {} f false =
      ({ proto_obj := some f }, .ok (some f)) ∧
    TransitionRouteBuilder.load_transition_route {} tr false =
      ({ proto_obj := some tr }, .ok (some tr)) ∧
    EventHandlerBuilder.load_event_handler {} eh false =
      ({ proto_obj := some eh }, .ok (some eh)) := by
  exact ⟨rfl, rfl, rfl⟩

/-- C10: presence of the held record is its truthiness. create_empty_fulfillment
    with all arguments defaulted leaves an empty, falsy record held; on that
    builder add_response_message and add_parameter_presets raise the NotLoaded
    error, while a second create_empty_fulfillment or load_fulfillment without
    overwrite succeeds and replaces the empty record instead of raising
    AlreadyLoaded. -/
theorem c10_presence_is_truthiness (obj : Fulfillment) :
    FulfillmentBuilder.create_empty_fulfillment {} PyVal.none PyVal.none
        (PyVal.bool false) false = ({ proto_obj := some {} }, .ok (some {})) ∧
    Fulfillment.isTruthy {} = false ∧
    FulfillmentBuilder.add_response_message { proto_obj := some {} } "text"
        (PyVal.str "hi") Option.none =
      ({ proto_obj := some {} }, .error .notLoaded) ∧
    FulfillmentBuilder.add_parameter_presets { proto_obj := some {} }
        (PyVal.dict [(PyVal.str "a", PyVal.str "1")]) =
      ({ proto_obj := some {} }, .error .notLoaded) ∧
    FulfillmentBuilder.create_empty_fulfillment { proto_obj := some {} }
        (PyVal.str "w") (PyVal.str "g") (PyVal.bool false) false =
      ({ proto_obj := some { webhook := "w", tag := "g" } },
       .ok (some { webhook := "w", tag := "g" })) ∧
    FulfillmentBuilder.load_fulfillment { proto_obj := some {} } obj false =
      ({ proto_obj := some obj }, .ok (some obj)) := by
  exact ⟨rfl, rfl, rfl, rfl, rfl, rfl⟩

/-- C4: create_empty_transition_route on an empty builder with
    trigger_fulfillment omitted and the other arguments valid holds a record
    whose trigger_fulfillment sub-record is present and equal to the empty
    Fulfillment, never left unset. -/
theorem c4_trigger_fulfillment_substituted (intent condition tp tfl : PyVal)
    (h1 : intent.isNoneOrStr = true) (h2 : condition.isNoneOrStr = true)
    (h3 : tp.isNoneOrStr = true) (h4 : tfl.isNoneOrStr = true)
    (h5 : (tp.truthy && tfl.truthy) = false) :
    TransitionRouteBuilder.create_empty_transition_route {} intent condition
        Option.none tp tfl false =
      ({ proto_obj := some { intent := intent.asStr, condition := condition.asStr,
                             trigger_fulfillment := some {},
                             target_page := tp.asStr,
                             target_flow := tfl.asStr } },
       .ok (some { intent := intent.asStr, condition := condition.asStr,
                   trigger_fulfillment := some {}, target_page := tp.asStr,
                   target_flow := tfl.asStr })) := by
  unfold TransitionRouteBuilder.create_empty_transition_route
  rw [marshalStr_of_isNoneOrStr h1, marshalStr_of_isNoneOrStr h2,
      marshalStr_of_isNoneOrStr h3, marshalStr_of_isNoneOrStr h4]
  simp [strGuard_false h1, strGuard_false h2, strGuard_false h3,
        strGuard_false h4, h5, optTruthyTR, optTruthyF]

/-- C4 witness at a concrete input: only the intent is given. -/
theorem c4_witness :
    TransitionRouteBuilder.create_empty_transition_route {} (PyVal.str "i1")
        PyVal.none Option.none PyVal.none PyVal.none false =
      ({ proto_obj := some { intent := "i1", trigger_fulfillment := some {} } },
       .ok (some { intent := "i1", trigger_fulfillment := some {} })) :=
  c4_trigger_fulfillment_substituted (PyVal.str "i1") PyVal.none PyVal.none
    PyVal.none rfl rfl rfl rfl rfl

/-- C5: on both TransitionRouteBuilder and EventHandlerBuilder, a create call in
    which both target_page and target_flow are given (truthy strings), the other
    arguments being well typed, fails with ConflictingFields and leaves the
    builder state unchanged, whatever it was and whatever overwrite is. -/
theorem c5_conflicting_targets (tb : TransitionRouteBuilder)
    (eb : EventHandlerBuilder) (intent condition ev : PyVal)
    (tf tf2 : Option Fulfillment) (p fl : String) (ow1 ow2 : Bool)
    (h1 : intent.isNoneOrStr = true) (h2 : condition.isNoneOrStr = true)
    (h3 : ev.isNoneOrStr = true) (hp : p ≠ "") (hf : fl ≠ "") :
    TransitionRouteBuilder.create_empty_transition_route tb intent condition tf
        (PyVal.str p) (PyVal.str fl) ow1 = (tb, .error .conflictingFields) ∧
    EventHandlerBuilder.create_empty_event_handler eb ev tf2 (PyVal.str p)
        (PyVal.str fl) ow2 = (eb, .error .conflictingFields) := by
  have gp : (PyVal.str p).truthy = true := by simp [PyVal.truthy, hp]
  have gf : (PyVal.str fl).truthy = true := by simp [PyVal.truthy, hf]
  have gps : (PyVal.str p).isStr = true := rfl
  have gfs : (PyVal.str fl).isStr = true := rfl
  constructor
  · unfold TransitionRouteBuilder.create_empty_transition_route
    simp [strGuard_false h1, strGuard_false h2, gp, gf, gps, gfs]
  · unfold EventHandlerBuilder.create_empty_event_handler
    simp [strGuard_false h3, gp, gf, gps, gfs]

/-- C5 witness at a concrete input: both targets given on empty builders. -/
theorem c5_witness :
    TransitionRouteBuilder.create_empty_transition_route {} PyVal.none PyVal.none
        Option.none (PyVal.str "p1") (PyVal.str "f1") false =
      (({} : TransitionRouteBuilder), .error .conflictingFields) ∧
    EventHandlerBuilder.create_empty_event_handler {} (PyVal.str "ev") Option.none
        (PyVal.str "p1") (PyVal.str "f1") false =
      (({} : EventHandlerBuilder), .error .conflictingFields) :=
  c5_conflicting_targets {} {} PyVal.none PyVal.none (PyVal.str "ev") Option.none
    Option.none "p1" "f1" false false rfl rfl rfl (by decide) (by decide)

/-- C6: create_empty_fulfillment fails with TypeMismatch whenever webhook or tag
    is present (truthy) and not a string, or return_partial_responses is present
    (truthy) and not a boolean, for every builder state and overwrite flag. -/
theorem c6_create_empty_fulfillment_type_mismatch (b : FulfillmentBuilder)
    (webhook tag rpr : PyVal) (ow : Bool) :
    (rpr.truthy = true ∧ rpr.isBool = false →
      FulfillmentBuilder.create_empty_fulfillment b webhook tag rpr ow =
        (b, .error .typeMismatch)) ∧
    ((webhook.truthy = true ∧ webhook.isStr = false) ∨
        (tag.truthy = true ∧ tag.isStr = false) →
      FulfillmentBuilder.create_empty_fulfillment b webhook tag rpr ow =
        (b, .error .typeMismatch)) := by
  constructor
  · rintro ⟨ha, hb⟩
    unfold FulfillmentBuilder.create_empty_fulfillment
    simp [ha, hb]
  · intro h
    unfold FulfillmentBuilder.create_empty_fulfillment
    by_cases hg : (rpr.truthy && !rpr.isBool) = true
    · simp [hg]
    · have hg2 : ((webhook.truthy && !webhook.isStr) ||
          (tag.truthy && !tag.isStr)) = true := by
        rcases h with ⟨ha, hb⟩ | ⟨ha, hb⟩ <;> simp [ha, hb]
      simp at hg
      simp [hg, hg2]

/-- C6 witness at concrete inputs: an int return_partial_responses and an int
    webhook each raise TypeMismatch on an empty builder. -/
theorem c6_witness :
    FulfillmentBuilder.create_empty_fulfillment {} PyVal.none PyVal.none
        (PyVal.int 5) false = (({} : FulfillmentBuilder), .error .typeMismatch) ∧
    FulfillmentBuilder.create_empty_fulfillment {} (PyVal.int 5) PyVal.none
        (PyVal.bool false) false =
      (({} : FulfillmentBuilder), .error .typeMismatch) :=
  ⟨(c6_create_empty_fulfillment_type_mismatch {} PyVal.none PyVal.none
      (PyVal.int 5) false).1 ⟨by decide, by decide⟩,
   (c6_create_empty_fulfillment_type_mismatch {} (PyVal.int 5) PyVal.none
      (PyVal.bool false) false).2 (Or.inl ⟨by decide, by decide⟩)⟩

/-- C7: on a builder holding a present (truthy) record, add_parameter_presets
    with a dict whose keys and values are all strings appends exactly one preset
    pair per entry, in iteration order, and returns the held record; with a dict
    containing a non-string key or value, or with a non-dict argument, it fails
    with InvalidArgument and changes nothing. -/
theorem c7_add_parameter_presets (f : Fulfillment) (hf : f.isTruthy = true)
    (es : List (PyVal × PyVal)) (pm : PyVal) :
    (es.all (fun e => e.1.isStr && e.2.isStr) = true →
      FulfillmentBuilder.add_parameter_presets { proto_obj := some f }
          (PyVal.dict es) =
        ({ proto_obj := some (appendPresets f es) },
         .ok (some (appendPresets f es)))) ∧
    (es.all (fun e => e.1.isStr && e.2.isStr) = false →
      FulfillmentBuilder.add_parameter_presets { proto_obj := some f }
          (PyVal.dict es) =
        ({ proto_obj := some f }, .error .invalidArgument)) ∧
    (pm.isDict = false →
      FulfillmentBuilder.add_parameter_presets { proto_obj := some f } pm =
        ({ proto_obj := some f }, .error .invalidArgument)) := by
  refine ⟨?_, ?_, ?_⟩
  · intro h
    simp [FulfillmentBuilder.add_parameter_presets,
          FulfillmentBuilder.check_fulfillment_exist, optTruthyF, hf, h,
          appendPresets]
  · intro h
    simp [FulfillmentBuilder.add_parameter_presets,
          FulfillmentBuilder.check_fulfillment_exist, optTruthyF, hf, h]
  · intro h
    cases pm <;> simp_all [FulfillmentBuilder.add_parameter_presets,
      FulfillmentBuilder.check_fulfillment_exist, optTruthyF, PyVal.isDict]

/-- C7 witness at concrete inputs: two string entries append two pairs in order;
    a non-string value and a non-dict argument raise InvalidArgument. -/
theorem c7_witness :
    FulfillmentBuilder.add_parameter_presets { proto_obj := some { tag := "t" } }
        (PyVal.dict [(PyVal.str "a", PyVal.str "1"),
                     (PyVal.str "b", PyVal.str "2")]) =
      ({ proto_obj := some { tag := "t", set_parameter_actions :=
            [{ parameter := "a", value := "1" },
             { parameter := "b", value := "2" }] } },
       .ok (some { tag := "t", set_parameter_actions :=
            [{ parameter := "a", value := "1" },
             { parameter := "b", value := "2" }] })) ∧
    FulfillmentBuilder.add_parameter_presets { proto_obj := some { tag := "t" } }
        (PyVal.dict [(PyVal.str "a", PyVal.int 1)]) =
      ({ proto_obj := some { tag := "t" } }, .error .invalidArgument) ∧
    FulfillmentBuilder.add_parameter_presets { proto_obj := some { tag := "t" } }
        (PyVal.str "x") =
      ({ proto_obj := some { tag := "t" } }, .error .invalidArgument) :=
  ⟨(c7_add_parameter_presets { tag := "t" } (by decide)
      [(PyVal.str "a", PyVal.str "1"), (PyVal.str "b", PyVal.str "2")]
      PyVal.none).1 (by decide),
   (c7_add_parameter_presets { tag := "t" } (by decide)
      [(PyVal.str "a", PyVal.int 1)] PyVal.none).2.1 (by decide),
   (c7_add_parameter_presets { tag := "t" } (by decide) []
      (PyVal.str "x")).2.2 (by decide)⟩

/-- C3 amended: in the output_audio_text branch of _response_message_creator,
    mode is required and must be "text" or "ssml": mode "text" sets the text
    sub-field and mode "ssml" sets the ssml (markup) sub-field of the response
    message the branch constructs, while omitting mode or passing any other value
    (including "markup") fails with InvalidArgument. (The constructed message is
    then discarded, never appended, because of the defect recorded in C1.) -/
theorem c3_amended_mode_text_or_ssml (s : String) (mode : Option String)
    (h1 : mode ≠ some "text") (h2 : mode ≠ some "ssml") :
    response_message_creator_value "output_audio_text" (PyVal.str s)
        (some "text") = .ok (.outputAudioText s "") ∧
    response_message_creator_value "output_audio_text" (PyVal.str s)
        (some "ssml") = .ok (.outputAudioText "" s) ∧
    response_message_creator_value "output_audio_text" (PyVal.str s) mode =
      .error .invalidArgument := by
  refine ⟨rfl, rfl, ?_⟩
  cases mode with
  | none => rfl
  | some m =>
    have hm1 : m ≠ "text" := by intro e; exact h1 (by rw [e])
    have hm2 : m ≠ "ssml" := by intro e; exact h2 (by rw [e])
    simp [response_message_creator_value, hm1, hm2]

/-- C3 amended witness at concrete inputs: message "hello", omitted mode. -/
theorem c3_amended_witness :
    response_message_creator_value "output_audio_text" (PyVal.str "hello")
        (some "text") = .ok (.outputAudioText "hello" "") ∧
    response_message_creator_value "output_audio_text" (PyVal.str "hello")
        (some "ssml") = .ok (.outputAudioText "" "hello") ∧
    response_message_creator_value "output_audio_text" (PyVal.str "hello")
        Option.none = .error .invalidArgument :=
  c3_amended_mode_text_or_ssml "hello" Option.none (by decide) (by decide)

/-- C2 amended: for each builder, when the held record is truthy (nonempty), a
    createEmpty call with well-typed arguments and overwrite false fails with
    AlreadyLoaded and changes nothing, and the same call with overwrite true
    succeeds and fully replaces the held record with the newly constructed one.
    (When the held record is empty the guard does not fire: see the
    counterexample, where presence is decided by truthiness.) -/
theorem c2_amended_already_loaded_needs_truthy_record
    (fb : FulfillmentBuilder) (w t r : PyVal)
    (hw : w.isNoneOrStr = true) (ht : t.isNoneOrStr = true)
    (hr : r.isBool = true) (hwt : w.truthy = true → t.truthy = true)
    (hfb : optTruthyF fb.proto_obj = true)
    (tb : TransitionRouteBuilder) (i c : PyVal) (tf : Option Fulfillment)
    (p fl : PyVal)
    (hi : i.isNoneOrStr = true) (hc : c.isNoneOrStr = true)
    (hp : p.isNoneOrStr = true) (hfl : fl.isNoneOrStr = true)
    (hpf : (p.truthy && fl.truthy) = false)
    (htb : optTruthyTR tb.proto_obj = true)
    (eb : EventHandlerBuilder) (ev : PyVal) (tf2 : Option Fulfillment)
    (p2 fl2 : PyVal)
    (hev : ev.isNoneOrStr = true) (hp2 : p2.isNoneOrStr = true)
    (hfl2 : fl2.isNoneOrStr = true) (hpf2 : (p2.truthy && fl2.truthy) = false)
    (heb : optTruthyEH eb.proto_obj = true) :
    FulfillmentBuilder.create_empty_fulfillment fb w t r false =
      (fb, .error .alreadyLoaded) ∧
    FulfillmentBuilder.create_empty_fulfillment fb w t r true =
      ({ proto_obj := some { webhook := w.asStr, tag := t.asStr,
                             return_partial_responses := r.asBool } },
       .ok (some { webhook := w.asStr, tag := t.asStr,
                   return_partial_responses := r.asBool })) ∧
    TransitionRouteBuilder.create_empty_transition_route tb i c tf p fl false =
      (tb, .error .alreadyLoaded) ∧
    TransitionRouteBuilder.create_empty_transition_route tb i c tf p fl true =
      ({ proto_obj := some { intent := i.asStr, condition := c.asStr,
                             trigger_fulfillment :=
                               if !optTruthyF tf then some {} else tf,
                             target_page := p.asStr,
                             target_flow := fl.asStr } },
       .ok (some { intent := i.asStr, condition := c.asStr,
                   trigger_fulfillment :=
                     if !optTruthyF tf then some {} else tf,
                   target_page := p.asStr, target_flow := fl.asStr })) ∧
    EventHandlerBuilder.create_empty_event_handler eb ev tf2 p2 fl2 false =
      (eb, .error .alreadyLoaded) ∧
    EventHandlerBuilder.create_empty_event_handler eb ev tf2 p2 fl2 true =
      ({ proto_obj := some { event := ev.asStr, trigger_fulfillment := tf2,
                             target_page := p2.asStr,
                             target_flow := fl2.asStr } },
       .ok (some { event := ev.asStr, trigger_fulfillment := tf2,
                   target_page := p2.asStr, target_flow := fl2.asStr })) := by
  have gwt : (w.truthy && !t.truthy) = false := by
    cases hwq : w.truthy
    · simp
    · simp [hwt hwq]
  refine ⟨?_, ?_, ?_, ?_, ?_, ?_⟩
  · unfold FulfillmentBuilder.create_empty_fulfillment
    simp [boolGuard_false hr, strGuard_false hw, strGuard_false ht, gwt, hfb]
  · unfold FulfillmentBuilder.create_empty_fulfillment
    rw [marshalStr_of_isNoneOrStr hw, marshalStr_of_isNoneOrStr ht,
        marshalBool_of_isBool hr]
    simp [boolGuard_false hr, strGuard_false hw, strGuard_false ht, gwt]
  · unfold TransitionRouteBuilder.create_empty_transition_route
    simp [strGuard_false hi, strGuard_false hc, strGuard_false hp,
          strGuard_false hfl, hpf, htb]
  · unfold TransitionRouteBuilder.create_empty_transition_route
    rw [marshalStr_of_isNoneOrStr hi, marshalStr_of_isNoneOrStr hc,
        marshalStr_of_isNoneOrStr hp, marshalStr_of_isNoneOrStr hfl]
    simp [strGuard_false hi, strGuard_false hc, strGuard_false hp,
          strGuard_false hfl, hpf]
  · unfold EventHandlerBuilder.create_empty_event_handler
    simp [strGuard_false hev, hpf2, heb]
  · unfold EventHandlerBuilder.create_empty_event_handler
    rw [marshalStr_of_isNoneOrStr hev, marshalStr_of_isNoneOrStr hp2,
        marshalStr_of_isNoneOrStr hfl2]
    simp [strGuard_false hev, hpf2]

/-- C2 amended witness at concrete inputs: each builder holds a nonempty record,
    the second create fails without overwrite and replaces with it. -/
theorem c2_amended_witness :
    FulfillmentBuilder.create_empty_fulfillment { proto_obj := some { tag := "x" } }
        PyVal.none PyVal.none (PyVal.bool false) false =
      ({ proto_obj := some { tag := "x" } }, .error .alreadyLoaded) ∧
    FulfillmentBuilder.create_empty_fulfillment { proto_obj := some { tag := "x" } }
        PyVal.none PyVal.none (PyVal.bool false) true =
      ({ proto_obj := some {} }, .ok (some {})) ∧
    TransitionRouteBuilder.create_empty_transition_route
        { proto_obj := some { intent := "i" } } (PyVal.str "i2") PyVal.none
        Option.none PyVal.none PyVal.none false =
      ({ proto_obj := some { intent := "i" } }, .error .alreadyLoaded) ∧
    TransitionRouteBuilder.create_empty_transition_route
        { proto_obj := some { intent := "i" } } (PyVal.str "i2") PyVal.none
        Option.none PyVal.none PyVal.none true =
      ({ proto_obj := some { intent := "i2", trigger_fulfillment := some {} } },
       .ok (some { intent := "i2", trigger_fulfillment := some {} })) ∧
    EventHandlerBuilder.create_empty_event_handler
        { proto_obj := some { event := "e" } } (PyVal.str "e2") Option.none
        PyVal.none PyVal.none false =
      ({ proto_obj := some { event := "e" } }, .error .alreadyLoaded) ∧
    EventHandlerBuilder.create_empty_event_handler
        { proto_obj := some { event := "e" } } (PyVal.str "e2") Option.none
        PyVal.none PyVal.none true =
      ({ proto_obj := some { event := "e2" } }, .ok (some { event := "e2" })) :=
  c2_amended_already_loaded_needs_truthy_record
    { proto_obj := some { tag := "x" } } PyVal.none PyVal.none (PyVal.bool false)
    (by decide) (by decide) (by decide) (by decide) (by decide)
    { proto_obj := some { intent := "i" } } (PyVal.str "i2") PyVal.none
    Option.none PyVal.none PyVal.none
    (by decide) (by decide) (by decide) (by decide) (by decide) (by decide)
    { proto_obj := some { event := "e" } } (PyVal.str "e2") Option.none
    PyVal.none PyVal.none
    (by decide) (by decide) (by decide) (by decide) (by decide)

/-- Every single FulfillmentBuilder operation keeps the slot populated. -/
theorem stepF_preserves_isSome (b : FulfillmentBuilder) (op : FOp)
    (h : b.proto_obj.isSome = true) : (stepF b op).proto_obj.isSome = true := by
  cases op <;>
    (simp only [stepF, FulfillmentBuilder.load_fulfillment,
       FulfillmentBuilder.create_empty_fulfillment,
       FulfillmentBuilder.add_response_message,
       FulfillmentBuilder.add_parameter_presets,
       FulfillmentBuilder.add_conditional_case,
       FulfillmentBuilder.check_fulfillment_exist] <;>
     repeat' split <;> try simp_all)

/-- Every single TransitionRouteBuilder operation keeps the slot populated. -/
theorem stepTR_preserves_isSome (b : TransitionRouteBuilder) (op : TROp)
    (h : b.proto_obj.isSome = true) : (stepTR b op).proto_obj.isSome = true := by
  cases op <;>
    (simp only [stepTR, TransitionRouteBuilder.load_transition_route,
       TransitionRouteBuilder.create_empty_transition_route] <;>
     repeat' split <;> try simp_all)

/-- Every single EventHandlerBuilder operation keeps the slot populated. -/
theorem stepEH_preserves_isSome (b : EventHandlerBuilder) (op : EHOp)
    (h : b.proto_obj.isSome = true) : (stepEH b op).proto_obj.isSome = true := by
  cases op <;>
    (simp only [stepEH, EventHandlerBuilder.load_event_handler,
       EventHandlerBuilder.create_empty_event_handler] <;>
     repeat' split <;> try simp_all)

/-- Folding any FulfillmentBuilder operation list keeps the slot populated. -/
theorem foldl_stepF_isSome (ops : List FOp) (b : FulfillmentBuilder)
    (h : b.proto_obj.isSome = true) :
    ((ops.foldl stepF b).proto_obj).isSome = true := by
  induction ops generalizing b with
  | nil => exact h
  | cons op rest ih => exact ih _ (stepF_preserves_isSome b op h)

/-- Folding any TransitionRouteBuilder operation list keeps the slot populated. -/
theorem foldl_stepTR_isSome (ops : List TROp) (b : TransitionRouteBuilder)
    (h : b.proto_obj.isSome = true) :
    ((ops.foldl stepTR b).proto_obj).isSome = true := by
  induction ops generalizing b with
  | nil => exact h
  | cons op rest ih => exact ih _ (stepTR_preserves_isSome b op h)

/-- Folding any EventHandlerBuilder operation list keeps the slot populated. -/
theorem foldl_stepEH_isSome (ops : List EHOp) (b : EventHandlerBuilder)
    (h : b.proto_obj.isSome = true) :
    ((ops.foldl stepEH b).proto_obj).isSome = true := by
  induction ops generalizing b with
  | nil => exact h
  | cons op rest ih => exact ih _ (stepEH_preserves_isSome b op h)

/-- C9: for each builder, once the slot holds some record, every sequence of
    subsequent create, load or add operations, succeeding or raising, leaves it
    holding some record: there is no transition back to the unset state and no
    operation deletes the held record. -/
theorem c9_no_transition_back_to_empty
    (ops1 : List FOp) (fb : FulfillmentBuilder)
    (ops2 : List TROp) (tb : TransitionRouteBuilder)
    (ops3 : List EHOp) (eb : EventHandlerBuilder)
    (h1 : fb.proto_obj.isSome = true) (h2 : tb.proto_obj.isSome = true)
    (h3 : eb.proto_obj.isSome = true) :
    ((ops1.foldl stepF fb).proto_obj).isSome = true ∧
    ((ops2.foldl stepTR tb).proto_obj).isSome = true ∧
    ((ops3.foldl stepEH eb).proto_obj).isSome = true :=
  ⟨foldl_stepF_isSome ops1 fb h1, foldl_stepTR_isSome ops2 tb h2,
   foldl_stepEH_isSome ops3 eb h3⟩

/-- C9 witness at concrete inputs: loaded builders stay loaded across sample
    operation sequences containing failing and succeeding operations. -/
theorem c9_witness :
    ((([FOp.addCond, FOp.addMsg "text" (PyVal.str "hi") Option.none,
        FOp.create PyVal.none PyVal.none (PyVal.bool false) true,
        FOp.load {} false]).foldl stepF
          { proto_obj := some { tag := "t" } }).proto_obj).isSome = true ∧
    ((([TROp.create PyVal.none PyVal.none Option.none PyVal.none PyVal.none
          false,
        TROp.load { intent := "i" } true]).foldl stepTR
          { proto_obj := some { intent := "i" } }).proto_obj).isSome = true ∧
    ((([EHOp.load { event := "e" } false,
        EHOp.create (PyVal.str "e2") Option.none PyVal.none PyVal.none
          true]).foldl stepEH
          { proto_obj := some { event := "e" } }).proto_obj).isSome = true :=
  c9_no_transition_back_to_empty _ _ _ _ _ _ rfl rfl rfl
